import Mathlib

/-!
Shallow embedding of the Pickovo backend wallet ledger subsystem:
the `update_wallet_balance` stored procedure (ledger engine), the
`/api/wallet` HTTP handler (API surface), and the `withAuth` middleware.

DECIMAL(10,2) currency amounts are modeled as exact integers (`Int`,
e.g. a count of cents); the additive and ordering structure used by the
code is identical. Row timestamps and generated UUIDs are modeled by a
monotone counter `DB.nextId`, so `created_at` order coincides with
creation order. The database state is explicit: a list of wallet rows
and an append-only list of wallet_transactions rows.
-/

/-! ### JavaScript value and coercion semantics used by the API layer -/

/-- A JSON/JavaScript value as it appears in a request body field:
a number, a string, `null`, or absent (`undefined`). -/
inductive JsVal where
  | num (n : Int)
  | str (s : String)
  | nullV
  | undef
deriving DecidableEq

/-- JavaScript truthiness: `0`, the empty string, `null` and `undefined`
are falsy; everything else is truthy. -/
def jsTruthy : JsVal → Bool
  | .num n => n != 0
  | .str s => s != ""
  | .nullV => false
  | .undef => false

/-- Decimal digit value of a character, if it is a digit. -/
def decDigit (c : Char) : Option Nat :=
  if 48 ≤ c.toNat ∧ c.toNat ≤ 57 then some (c.toNat - 48) else none

/-- Value of a nonempty string of decimal digits. -/
def digitsVal : List Char → Option Nat
  | [] => none
  | [c] => decDigit c
  | c :: rest =>
    match decDigit c, digitsVal rest with
    | some d, some v => some (d * 10 ^ rest.length + v)
    | _, _ => none

/-- JavaScript `Number(s)` on a string: the empty string coerces to 0,
an optionally negated digit string to its value, anything else to NaN
(`none`). -/
def jsNumberOfString (s : String) : Option Int :=
  match s.data with
  | [] => some 0
  | c :: rest =>
    if c = '-' then (digitsVal rest).map (fun n => -(n : Int))
    else (digitsVal (c :: rest)).map (fun n => (n : Int))

/-- JavaScript `Number(x)`: `null` coerces to 0, `undefined` to NaN
(`none`), strings via `jsNumberOfString`. -/
def jsToNumber : JsVal → Option Int
  | .num n => some n
  | .str s => jsNumberOfString s
  | .nullV => some 0
  | .undef => none

/-- Whether `needle` occurs contiguously inside `hay` (case-sensitive),
the semantics of JavaScript `String.prototype.includes`. -/
def charsInfixOf : List Char → List Char → Bool
  | needle, [] => needle.isEmpty
  | needle, c :: rest => needle.isPrefixOf (c :: rest) || charsInfixOf needle rest

/-- JavaScript `s.includes(sub)`, case-sensitive. -/
def jsIncludes (s sub : String) : Bool := charsInfixOf sub.data s.data

/-- JavaScript split on a single space: one piece per run between spaces. -/
def charsSplitOnSpace : List Char → List (List Char)
  | [] => [[]]
  | c :: rest =>
    let r := charsSplitOnSpace rest
    if c = ' ' then [] :: r
    else
      match r with
      | [] => [[c]]
      | w :: ws => (c :: w) :: ws

/-! ### Data model: wallets and wallet_transactions rows -/

/-- A row of the `wallet_transactions` table. -/
structure WalletTx where
  id : Nat
  user_id : String
  amount : Int
  type : String
  description : Option String
  reference_id : Option String
  created_at : Nat
deriving DecidableEq

/-- The database state visible to the wallet subsystem: the `wallets`
table (user_id, balance), the `wallet_transactions` table in creation
order, and the generator for fresh ids / timestamps. -/
structure DB where
  wallets : List (String × Int)
  transactions : List WalletTx
  nextId : Nat
deriving DecidableEq

/-- The empty database. -/
def DB.empty : DB := { wallets := [], transactions := [], nextId := 0 }

/-- `SELECT balance FROM wallets WHERE user_id = u` (user_id is the
primary key). -/
def lookupBal : List (String × Int) → String → Option Int
  | [], _ => none
  | (k, b) :: rest, u => if k = u then some b else lookupBal rest u

/-- `UPDATE wallets SET balance = v WHERE user_id = u`. -/
def setBal : List (String × Int) → String → Int → List (String × Int)
  | [], _, _ => []
  | (k, b) :: rest, u, v =>
    if k = u then (k, v) :: setBal rest u v else (k, b) :: setBal rest u v

/-- The balance of a user, 0 if the wallet row does not exist. -/
def walletBal (db : DB) (u : String) : Int := (lookupBal db.wallets u).getD 0

/-- `SELECT * FROM wallet_transactions WHERE user_id = u` in creation
order. -/
def userTxs (db : DB) (u : String) : List WalletTx :=
  db.transactions.filter (fun t => t.user_id == u)

/-- Replay of a ledger in creation order: `+amount` for a credit row and
`-amount` for every other row (successful rows are always credit or
debit). -/
def replayLedger (l : List WalletTx) : Int :=
  l.foldl (fun b t => if t.type = "credit" then b + t.amount else b - t.amount) 0

/-- Insert a transaction into a list sorted by `created_at` descending. -/
def insertDesc (t : WalletTx) : List WalletTx → List WalletTx
  | [] => [t]
  | u :: us => if u.created_at ≤ t.created_at then t :: u :: us else u :: insertDesc t us

/-- `ORDER BY created_at DESC`. -/
def sortByCreatedAtDesc : List WalletTx → List WalletTx
  | [] => []
  | t :: ts => insertDesc t (sortByCreatedAtDesc ts)

/-! ### Ledger engine: the `update_wallet_balance` stored procedure -/

/-- A PostgreSQL error surfaced to the API layer by the RPC call:
either of the two `RAISE EXCEPTION`s of `update_wallet_balance`, or a
violation of the `wallets` CHECK (balance >= 0) constraint. -/
inductive PgErr where
  | insufficientFunds (current amount : Int)
  | invalidTransactionType
  | checkViolation
deriving DecidableEq

/-- The `message` field of the error as the RPC caller observes it. -/
def PgErr.message : PgErr → String
  | .insufficientFunds c a =>
      "Insufficient funds: current balance " ++ toString c ++
      " is less than debit amount " ++ toString a
  | .invalidTransactionType => "Invalid transaction type: must be credit or debit"
  | .checkViolation =>
      "new row for relation \x22wallets\x22 violates check constraint \x22wallets_balance_check\x22"

/-- The JSONB object returned by `update_wallet_balance` on success. -/
structure TxResult where
  transaction_id : Nat
  user_id : String
  previous_balance : Int
  new_balance : Int
  amount : Int
  type : String
  description : Option String
  reference_id : Option String
  created_at : Nat
deriving DecidableEq

/-- The common tail of `update_wallet_balance` after the new balance is
computed (source lines 149-170): the `wallets` UPDATE — which raises a
check violation if the new balance breaks `CHECK (balance >= 0)` — the
`wallet_transactions` INSERT, and the result object. `db0` is the state
at entry to the statement (restored on any raise, since the whole
function runs as a single atomic statement), `db1` the state after the
lazy wallet creation. -/
def commitTx (db0 db1 : DB) (p_user_id : String) (v_new_balance v_current_balance : Int)
    (p_amount : Int) (p_type : String) (p_description p_reference_id : Option String) :
    Except PgErr TxResult × DB :=
  if v_new_balance < 0 then (.error .checkViolation, db0)
  else
    let v_transaction_id := db1.nextId
    let tx : WalletTx :=
      { id := v_transaction_id, user_id := p_user_id, amount := p_amount,
        type := p_type, description := p_description,
        reference_id := p_reference_id, created_at := db1.nextId }
    (.ok { transaction_id := v_transaction_id, user_id := p_user_id,
           previous_balance := v_current_balance, new_balance := v_new_balance,
           amount := p_amount, type := p_type, description := p_description,
           reference_id := p_reference_id, created_at := db1.nextId },
     { wallets := setBal db1.wallets p_user_id v_new_balance,
       transactions := db1.transactions ++ [tx],
       nextId := db1.nextId + 1 })

/-- Source lines 124-131: check whether a wallet exists and insert a
zero-balance row if not. -/
def lazyCreateWallet (db : DB) (p_user_id : String) : DB :=
  if (lookupBal db.wallets p_user_id).isSome then db
  else { db with wallets := db.wallets ++ [(p_user_id, 0)] }

/-- The `update_wallet_balance` stored procedure. It runs as one atomic
statement: on any raised error the returned state is the entry state
`db` (all effects, including the lazy wallet creation, are rolled
back). -/
def update_wallet_balance (db : DB) (p_user_id : String) (p_amount : Int)
    (p_type : String) (p_description p_reference_id : Option String) :
    Except PgErr TxResult × DB :=
  let db1 : DB := lazyCreateWallet db p_user_id
  let v_current_balance : Int := (lookupBal db1.wallets p_user_id).getD 0
  if p_type = "credit" then
    commitTx db db1 p_user_id (v_current_balance + p_amount) v_current_balance
      p_amount p_type p_description p_reference_id
  else if p_type = "debit" then
    if v_current_balance - p_amount < 0 then
      (.error (.insufficientFunds v_current_balance p_amount), db)
    else
      commitTx db db1 p_user_id (v_current_balance - p_amount) v_current_balance
        p_amount p_type p_description p_reference_id
  else
    (.error .invalidTransactionType, db)

/-- One call to the engine, as an operation on the database state. -/
structure Op where
  uid : String
  amount : Int
  ty : String
  descr : Option String
  ref : Option String

/-- The state after one engine call (result discarded). -/
def stepOp (db : DB) (o : Op) : DB :=
  (update_wallet_balance db o.uid o.amount o.ty o.descr o.ref).2

/-- The state after a sequence of engine calls from `db`. -/
def runFrom (db : DB) (ops : List Op) : DB := ops.foldl stepOp db

/-- The state after a sequence of engine calls from the empty database. -/
def run (ops : List Op) : DB := runFrom DB.empty ops

/-! ### API surface: the `/api/wallet` handler -/

/-- The body of an HTTP response from the wallet handler: an error
object, the JSONB transaction result of a POST, or the GET summary
`balance / transactions / pagination (total, offset, limit)`. -/
inductive RespBody where
  | errMsg (error : String)
  | txResult (r : TxResult)
  | summary (balance : Int) (transactions : List WalletTx) (total : Nat) (off lim : Int)
deriving DecidableEq

/-- An HTTP response: status code and JSON body. -/
structure HttpResponse where
  status : Nat
  body : RespBody
deriving DecidableEq

/-- The JSON body of a POST /wallet request, as the handler
destructures it: `amount` and `type` are arbitrary JSON values (the
handler validates them); `description` and `reference_id` are either
absent or strings. -/
structure PostBody where
  amount : JsVal
  type : JsVal
  description : Option String
  reference_id : Option String
deriving DecidableEq

/-- The default description the handler supplies when the caller omits
one: Wallet top-up for a credit and Wallet deduction for a debit. -/
def defaultDesc (ty : String) : String :=
  if ty = "credit" then "Wallet top-up" else "Wallet deduction"

/-- The `p_type` string the handler passes to the RPC; only evaluated
after validation has established `type` is the string `credit` or the
string `debit`. -/
def postTypeString (b : PostBody) : String :=
  if b.type = JsVal.str "credit" then "credit" else "debit"

/-- JavaScript `x || y` for an optional string `x`: `y` when `x` is
absent or the empty string (falsy), `x` otherwise. -/
def jsOrDefault (x : Option String) (y : String) : String :=
  match x with
  | none => y
  | some s => if s = "" then y else s

/-- The POST branch of the wallet handler (source lines 448-499):
validation, the RPC call, and the mapping of RPC errors to responses.
`genRef` is the value of the `uuidv4()` call used when the caller
supplies no `reference_id`. -/
def handlePost (db : DB) (userId : String) (b : PostBody) (genRef : String) :
    HttpResponse × DB :=
  if ¬ jsTruthy b.amount ∨ ¬ jsTruthy b.type then
    ({ status := 400, body := .errMsg "Missing required fields: amount and type are required" }, db)
  else if b.type ≠ JsVal.str "credit" ∧ b.type ≠ JsVal.str "debit" then
    ({ status := 400, body := .errMsg "Type must be either \x22credit\x22 or \x22debit\x22" }, db)
  else
    match jsToNumber b.amount with
    | none => ({ status := 400, body := .errMsg "Amount must be a positive number" }, db)
    | some numAmount =>
      if numAmount ≤ 0 then
        ({ status := 400, body := .errMsg "Amount must be a positive number" }, db)
      else
        match update_wallet_balance db userId numAmount (postTypeString b)
            (some (jsOrDefault b.description (defaultDesc (postTypeString b))))
            (some (jsOrDefault b.reference_id genRef)) with
        | (.error e, db2) =>
          if jsIncludes e.message "insufficient funds" then
            ({ status := 400, body := .errMsg "Insufficient funds" }, db2)
          else
            ({ status := 500, body := .errMsg "Failed to update wallet" }, db2)
        | (.ok data, db2) => ({ status := 200, body := .txResult data }, db2)

/-- The query parameters of a GET /wallet request, absent or integer. -/
structure WalletQuery where
  limit : Option Int
  offset : Option Int
deriving DecidableEq

/-- Which storage calls of the GET branch fail on this request: the
wallets select (with an error other than PGRST116), the wallet insert,
the transactions select, and the count query. -/
structure GetOutcomes where
  walletErr : Bool
  createErr : Bool
  txErr : Bool
  countErr : Bool
deriving DecidableEq

/-- The inclusive index slice `range(a, b)` of the storage client. -/
def rangeSlice (l : List WalletTx) (a b : Int) : List WalletTx :=
  (l.drop a.toNat).take (b + 1 - a).toNat

/-- The tail of the GET branch after the balance is known (source lines
406-440): the transactions page, the count query — whose failure is
only logged, not returned — and the 200 response. -/
def getTail (db : DB) (userId : String) (balance : Int) (lim off : Int)
    (oc : GetOutcomes) : HttpResponse × DB :=
  if oc.txErr then ({ status := 500, body := .errMsg "Failed to fetch transactions" }, db)
  else
    let transactions :=
      rangeSlice (sortByCreatedAtDesc (userTxs db userId)) off (off + lim - 1)
    let totalCount : Option Nat :=
      if oc.countErr then none else some (userTxs db userId).length
    ({ status := 200,
       body := .summary balance transactions (totalCount.getD 0) off lim }, db)

/-- The GET branch of the wallet handler (source lines 366-445):
balance fetch, lazy zero-balance wallet creation, transaction page and
count. -/
def handleGet (db : DB) (userId : String) (q : WalletQuery) (oc : GetOutcomes) :
    HttpResponse × DB :=
  let lim : Int := q.limit.getD 10
  let off : Int := q.offset.getD 0
  if oc.walletErr then ({ status := 500, body := .errMsg "Failed to fetch wallet" }, db)
  else
    match lookupBal db.wallets userId with
    | none =>
      if oc.createErr then ({ status := 500, body := .errMsg "Failed to create wallet" }, db)
      else getTail { db with wallets := db.wallets ++ [(userId, 0)] } userId 0 lim off oc
    | some b => getTail db userId b lim off oc

/-- An HTTP request to the wallet endpoint. -/
structure Request where
  method : String
  authHeader : Option String
  query : WalletQuery
  body : PostBody

/-- The wallet handler: method dispatch over GET, POST, and 405. -/
def handler (userId : String) (req : Request) (db : DB) (oc : GetOutcomes)
    (genRef : String) : HttpResponse × DB :=
  if req.method = "GET" then handleGet db userId req.query oc
  else if req.method = "POST" then handlePost db userId req.body genRef
  else ({ status := 405, body := .errMsg "Method not allowed" }, db)

/-! ### Auth middleware -/

/-- `getUserFromRequest`: requires an `Authorization` header starting
with the seven characters of `Bearer` plus a space, extracts the token
as element 1 of the split on spaces, rejects an empty token, and asks
the identity provider `verify` to resolve it to a user id. -/
def getUserFromRequest (verify : String → Option String)
    (authHeader : Option String) : Option String :=
  match authHeader with
  | none => none
  | some h =>
    if "Bearer ".data.isPrefixOf h.data then
      match ((charsSplitOnSpace h.data).map String.mk)[1]? with
      | none => none
      | some token => if token = "" then none else verify token
    else none

/-- `withAuth(handler)`: responds 401 without invoking the handler when
authentication fails, otherwise passes the resolved user id through. -/
def withAuth (verify : String → Option String) (req : Request) (db : DB)
    (oc : GetOutcomes) (genRef : String) : HttpResponse × DB :=
  match getUserFromRequest verify req.authHeader with
  | none => ({ status := 401, body := .errMsg "Unauthorized" }, db)
  | some userId => handler userId req db oc genRef

/-- The set of POST bodies the handler validation rejects, as the spec
enumerates it: `amount` missing, non-numeric, or at most 0, or `type`
not exactly the string `credit` or the string `debit`. -/
def validationFailsB (b : PostBody) : Bool :=
  (b.amount == JsVal.undef) ||
  (match jsToNumber b.amount with
   | none => true
   | some q => decide (q ≤ 0)) ||
  ((b.type != JsVal.str "credit") && (b.type != JsVal.str "debit"))

/-- The pagination total of a response body, when it is a GET summary. -/
def paginationTotal : RespBody → Option Nat
  | .summary _ _ tot _ _ => some tot
  | _ => none

/-! ### Helper lemmas about the row-level operations -/

theorem lookupBal_append_of_none (l : List (String × Int)) (u u' : String) (v : Int)
    (h : lookupBal l u' = none) :
    lookupBal (l ++ [(u, v)]) u' = if u = u' then some v else none := by
  induction l with
  | nil => simp [lookupBal]
  | cons p rest ih =>
    obtain ⟨k, b⟩ := p
    by_cases hk : k = u'
    · simp [lookupBal, hk] at h
    · simp [lookupBal, hk] at h ⊢
      exact ih h

theorem lookupBal_append_of_some (l m : List (String × Int)) (u' : String) (b : Int)
    (h : lookupBal l u' = some b) :
    lookupBal (l ++ m) u' = some b := by
  induction l with
  | nil => simp [lookupBal] at h
  | cons p rest ih =>
    obtain ⟨k, c⟩ := p
    by_cases hk : k = u'
    · simp [lookupBal, hk] at h ⊢; exact h
    · simp [lookupBal, hk] at h ⊢; exact ih h

theorem lookupBal_setBal_self (l : List (String × Int)) (u : String) (v : Int) :
    lookupBal (setBal l u v) u = (lookupBal l u).map (fun _ => v) := by
  induction l with
  | nil => simp [lookupBal, setBal]
  | cons p rest ih =>
    obtain ⟨k, b⟩ := p
    by_cases hk : k = u
    · simp [lookupBal, setBal, hk]
    · simp [lookupBal, setBal, hk, ih]

theorem lookupBal_setBal_ne (l : List (String × Int)) (u u' : String) (v : Int)
    (h : u' ≠ u) :
    lookupBal (setBal l u v) u' = lookupBal l u' := by
  induction l with
  | nil => simp [setBal]
  | cons p rest ih =>
    obtain ⟨k, b⟩ := p
    by_cases hk : k = u
    · subst hk
      simp [lookupBal, setBal, Ne.symm h, ih]
    · by_cases hk' : k = u'
      · simp [lookupBal, setBal, hk, hk', h]
      · simp [lookupBal, setBal, hk, hk', ih]

theorem mem_setBal (l : List (String × Int)) (u : String) (v : Int) (p : String × Int)
    (h : p ∈ setBal l u v) : p.2 = v ∨ p ∈ l := by
  induction l with
  | nil => simp [setBal] at h
  | cons q rest ih =>
    obtain ⟨k, b⟩ := q
    by_cases hk : k = u
    · simp [setBal, hk] at h
      rcases h with h | h
      · left; rw [h]
      · rcases ih h with h' | h'
        · left; exact h'
        · right; exact List.mem_cons_of_mem _ h'
    · simp [setBal, hk] at h
      rcases h with h | h
      · right; rw [h]; exact List.mem_cons_self _ _
      · rcases ih h with h' | h'
        · left; exact h'
        · right; exact List.mem_cons_of_mem _ h'

theorem lazyCreateWallet_lookup_self (db : DB) (u : String) :
    lookupBal (lazyCreateWallet db u).wallets u = some (walletBal db u) := by
  unfold lazyCreateWallet walletBal
  cases h : lookupBal db.wallets u with
  | none => simp [h, lookupBal_append_of_none db.wallets u u 0 h]
  | some b => simp [h]

theorem lazyCreateWallet_lookup_ne (db : DB) (u u' : String) (h : u' ≠ u) :
    lookupBal (lazyCreateWallet db u).wallets u' = lookupBal db.wallets u' := by
  unfold lazyCreateWallet
  cases hs : lookupBal db.wallets u with
  | some b => simp [hs]
  | none =>
    cases h' : lookupBal db.wallets u' with
    | some b => simp [hs, lookupBal_append_of_some db.wallets [(u, 0)] u' b h']
    | none => simp [hs, lookupBal_append_of_none db.wallets u u' 0 h', Ne.symm h]

theorem lazyCreateWallet_transactions (db : DB) (u : String) :
    (lazyCreateWallet db u).transactions = db.transactions := by
  unfold lazyCreateWallet
  split <;> rfl

theorem lazyCreateWallet_nextId (db : DB) (u : String) :
    (lazyCreateWallet db u).nextId = db.nextId := by
  unfold lazyCreateWallet
  split <;> rfl

theorem mem_lazyCreateWallet (db : DB) (u : String) (p : String × Int)
    (h : p ∈ (lazyCreateWallet db u).wallets) : p ∈ db.wallets ∨ p = (u, 0) := by
  unfold lazyCreateWallet at h
  split at h
  · left; exact h
  · simp at h
    exact h

theorem replayLedger_append_single (l : List WalletTx) (t : WalletTx) :
    replayLedger (l ++ [t]) =
      if t.type = "credit" then replayLedger l + t.amount
      else replayLedger l - t.amount := by
  unfold replayLedger
  rw [List.foldl_append]
  simp

/-! ### Characterization of the engine on each branch -/

theorem uwb_debit_insufficient (db : DB) (u : String) (a : Int) (d r : Option String)
    (h : walletBal db u - a < 0) :
    update_wallet_balance db u a "debit" d r =
      (.error (.insufficientFunds (walletBal db u) a), db) := by
  simp only [update_wallet_balance, lazyCreateWallet_lookup_self, Option.getD_some]
  simp [h]

theorem uwb_debit_ok (db : DB) (u : String) (a : Int) (d r : Option String)
    (h : ¬ walletBal db u - a < 0) :
    update_wallet_balance db u a "debit" d r =
      (.ok { transaction_id := db.nextId, user_id := u,
             previous_balance := walletBal db u, new_balance := walletBal db u - a,
             amount := a, type := "debit", description := d, reference_id := r,
             created_at := db.nextId },
       { wallets := setBal (lazyCreateWallet db u).wallets u (walletBal db u - a),
         transactions := db.transactions ++ [⟨db.nextId, u, a, "debit", d, r, db.nextId⟩],
         nextId := db.nextId + 1 }) := by
  simp only [update_wallet_balance, lazyCreateWallet_lookup_self, Option.getD_some,
    commitTx, lazyCreateWallet_transactions, lazyCreateWallet_nextId]
  simp [h]

theorem uwb_credit_ok (db : DB) (u : String) (a : Int) (d r : Option String)
    (h : ¬ walletBal db u + a < 0) :
    update_wallet_balance db u a "credit" d r =
      (.ok { transaction_id := db.nextId, user_id := u,
             previous_balance := walletBal db u, new_balance := walletBal db u + a,
             amount := a, type := "credit", description := d, reference_id := r,
             created_at := db.nextId },
       { wallets := setBal (lazyCreateWallet db u).wallets u (walletBal db u + a),
         transactions := db.transactions ++ [⟨db.nextId, u, a, "credit", d, r, db.nextId⟩],
         nextId := db.nextId + 1 }) := by
  simp only [update_wallet_balance, lazyCreateWallet_lookup_self, Option.getD_some,
    commitTx, lazyCreateWallet_transactions, lazyCreateWallet_nextId]
  simp [h]

theorem uwb_credit_err (db : DB) (u : String) (a : Int) (d r : Option String)
    (h : walletBal db u + a < 0) :
    update_wallet_balance db u a "credit" d r = (.error .checkViolation, db) := by
  simp only [update_wallet_balance, lazyCreateWallet_lookup_self, Option.getD_some,
    commitTx]
  simp [h]

theorem uwb_invalid (db : DB) (u : String) (a : Int) (ty : String) (d r : Option String)
    (h1 : ty ≠ "credit") (h2 : ty ≠ "debit") :
    update_wallet_balance db u a ty d r = (.error .invalidTransactionType, db) := by
  simp only [update_wallet_balance]
  rw [if_neg h1, if_neg h2]

theorem uwb_error_state (db : DB) (u : String) (a : Int) (ty : String)
    (d r : Option String) (e : PgErr)
    (h : (update_wallet_balance db u a ty d r).1 = .error e) :
    (update_wallet_balance db u a ty d r).2 = db := by
  by_cases hc : ty = "credit"
  · subst hc
    by_cases hn : walletBal db u + a < 0
    · rw [uwb_credit_err db u a d r hn]
    · rw [uwb_credit_ok db u a d r hn] at h ⊢
      simp at h
  · by_cases hd : ty = "debit"
    · subst hd
      by_cases hn : walletBal db u - a < 0
      · rw [uwb_debit_insufficient db u a d r hn]
      · rw [uwb_debit_ok db u a d r hn] at h ⊢
        simp at h
    · rw [uwb_invalid db u a ty d r hc hd]

/-! ### Invariants preserved by every engine call -/

theorem stepOp_wallets_nonneg (db : DB) (o : Op) (h : ∀ p ∈ db.wallets, 0 ≤ p.2) :
    ∀ p ∈ (stepOp db o).wallets, 0 ≤ p.2 := by
  unfold stepOp
  by_cases hc : o.ty = "credit"
  · by_cases hn : walletBal db o.uid + o.amount < 0
    · rw [hc, uwb_credit_err db o.uid o.amount o.descr o.ref hn]; exact h
    · rw [hc, uwb_credit_ok db o.uid o.amount o.descr o.ref hn]
      intro p hp
      rcases mem_setBal _ _ _ _ hp with h2 | h2
      · rw [h2]; omega
      · rcases mem_lazyCreateWallet db o.uid p h2 with h3 | h3
        · exact h p h3
        · rw [h3]
  · by_cases hd : o.ty = "debit"
    · by_cases hn : walletBal db o.uid - o.amount < 0
      · rw [hd, uwb_debit_insufficient db o.uid o.amount o.descr o.ref hn]; exact h
      · rw [hd, uwb_debit_ok db o.uid o.amount o.descr o.ref hn]
        intro p hp
        rcases mem_setBal _ _ _ _ hp with h2 | h2
        · rw [h2]; omega
        · rcases mem_lazyCreateWallet db o.uid p h2 with h3 | h3
          · exact h p h3
          · rw [h3]
    · rw [uwb_invalid db o.uid o.amount o.ty o.descr o.ref hc hd]; exact h

theorem runFrom_wallets_nonneg (ops : List Op) (db : DB)
    (h : ∀ p ∈ db.wallets, 0 ≤ p.2) :
    ∀ p ∈ (runFrom db ops).wallets, 0 ≤ p.2 := by
  induction ops generalizing db with
  | nil => exact h
  | cons o rest ih => exact ih (stepOp db o) (stepOp_wallets_nonneg db o h)

theorem userTxs_append_tx (db : DB) (l : List WalletTx) (t : WalletTx) (u : String)
    (hdb : db.transactions = l ++ [t]) :
    userTxs db u = (l.filter (fun s => s.user_id == u)) ++
      (if t.user_id = u then [t] else []) := by
  unfold userTxs
  rw [hdb, List.filter_append]
  by_cases h : t.user_id = u
  · simp [h]
  · simp [h]

theorem stepOp_recon (db : DB) (o : Op)
    (h : ∀ u, walletBal db u = replayLedger (userTxs db u)) :
    ∀ u, walletBal (stepOp db o) u = replayLedger (userTxs (stepOp db o) u) := by
  unfold stepOp
  by_cases hc : o.ty = "credit"
  · by_cases hn : walletBal db o.uid + o.amount < 0
    · rw [hc, uwb_credit_err db o.uid o.amount o.descr o.ref hn]; exact h
    · rw [hc, uwb_credit_ok db o.uid o.amount o.descr o.ref hn]
      intro u
      set db2 : DB :=
        { wallets := setBal (lazyCreateWallet db o.uid).wallets o.uid (walletBal db o.uid + o.amount),
          transactions := db.transactions ++
            [⟨db.nextId, o.uid, o.amount, "credit", o.descr, o.ref, db.nextId⟩],
          nextId := db.nextId + 1 } with hdb2
      rw [userTxs_append_tx db2 db.transactions _ u rfl]
      by_cases hu : u = o.uid
      · subst hu
        have hw : walletBal db2 o.uid = walletBal db o.uid + o.amount := by
          unfold walletBal
          show (lookupBal (setBal (lazyCreateWallet db o.uid).wallets o.uid _) o.uid).getD 0 = _
          rw [lookupBal_setBal_self, lazyCreateWallet_lookup_self]
          rfl
        rw [hw, if_pos rfl, replayLedger_append_single]
        have hr : replayLedger (List.filter (fun s => s.user_id == o.uid) db.transactions) =
            walletBal db o.uid := (h o.uid).symm
        simp [hr, userTxs] at hr ⊢
      · have hw : walletBal db2 u = walletBal db u := by
          unfold walletBal
          show (lookupBal (setBal (lazyCreateWallet db o.uid).wallets o.uid _) u).getD 0 = _
          rw [lookupBal_setBal_ne _ _ _ _ hu, lazyCreateWallet_lookup_ne db o.uid u hu]
        rw [hw, if_neg (by simpa using fun hh => hu hh.symm)]
        simpa [userTxs] using h u
  · by_cases hd : o.ty = "debit"
    · by_cases hn : walletBal db o.uid - o.amount < 0
      · rw [hd, uwb_debit_insufficient db o.uid o.amount o.descr o.ref hn]; exact h
      · rw [hd, uwb_debit_ok db o.uid o.amount o.descr o.ref hn]
        intro u
        set db2 : DB :=
          { wallets := setBal (lazyCreateWallet db o.uid).wallets o.uid (walletBal db o.uid - o.amount),
            transactions := db.transactions ++
              [⟨db.nextId, o.uid, o.amount, "debit", o.descr, o.ref, db.nextId⟩],
            nextId := db.nextId + 1 } with hdb2
        rw [userTxs_append_tx db2 db.transactions _ u rfl]
        by_cases hu : u = o.uid
        · subst hu
          have hw : walletBal db2 o.uid = walletBal db o.uid - o.amount := by
            unfold walletBal
            show (lookupBal (setBal (lazyCreateWallet db o.uid).wallets o.uid _) o.uid).getD 0 = _
            rw [lookupBal_setBal_self, lazyCreateWallet_lookup_self]
            rfl
          rw [hw, if_pos rfl, replayLedger_append_single]
          have hr : replayLedger (List.filter (fun s => s.user_id == o.uid) db.transactions) =
              walletBal db o.uid := (h o.uid).symm
          simp [hr, userTxs] at hr ⊢
        · have hw : walletBal db2 u = walletBal db u := by
            unfold walletBal
            show (lookupBal (setBal (lazyCreateWallet db o.uid).wallets o.uid _) u).getD 0 = _
            rw [lookupBal_setBal_ne _ _ _ _ hu, lazyCreateWallet_lookup_ne db o.uid u hu]
          rw [hw, if_neg (by simpa using fun hh => hu hh.symm)]
          simpa [userTxs] using h u
    · rw [uwb_invalid db o.uid o.amount o.ty o.descr o.ref hc hd]; exact h

theorem runFrom_recon (ops : List Op) (db : DB)
    (h : ∀ u, walletBal db u = replayLedger (userTxs db u)) :
    ∀ u, walletBal (runFrom db ops) u = replayLedger (userTxs (runFrom db ops) u) := by
  induction ops generalizing db with
  | nil => exact h
  | cons o rest ih => exact ih (stepOp db o) (stepOp_recon db o h)

theorem stepOp_tx_extends (db : DB) (o : Op) :
    ∃ appended, (stepOp db o).transactions = db.transactions ++ appended := by
  unfold stepOp
  by_cases hc : o.ty = "credit"
  · by_cases hn : walletBal db o.uid + o.amount < 0
    · rw [hc, uwb_credit_err db o.uid o.amount o.descr o.ref hn]
      exact ⟨[], by simp⟩
    · rw [hc, uwb_credit_ok db o.uid o.amount o.descr o.ref hn]
      exact ⟨_, rfl⟩
  · by_cases hd : o.ty = "debit"
    · by_cases hn : walletBal db o.uid - o.amount < 0
      · rw [hd, uwb_debit_insufficient db o.uid o.amount o.descr o.ref hn]
        exact ⟨[], by simp⟩
      · rw [hd, uwb_debit_ok db o.uid o.amount o.descr o.ref hn]
        exact ⟨_, rfl⟩
    · rw [uwb_invalid db o.uid o.amount o.ty o.descr o.ref hc hd]
      exact ⟨[], by simp⟩

theorem runFrom_tx_extends (ops : List Op) (db : DB) :
    ∃ appended, (runFrom db ops).transactions = db.transactions ++ appended := by
  induction ops generalizing db with
  | nil => exact ⟨[], by simp [runFrom]⟩
  | cons o rest ih =>
    obtain ⟨a1, h1⟩ := stepOp_tx_extends db o
    obtain ⟨a2, h2⟩ := ih (stepOp db o)
    exact ⟨a1 ++ a2, by simp [runFrom] at h2 ⊢; rw [h2, h1, List.append_assoc]⟩

/-! ### Claim theorems -/

/-- C1: for a POST /wallet debit that passes validation but exceeds the
balance (balance 50, debit 75), the claim expects a 400 response with
the dedicated insufficient-funds error. The engine does raise, and the
balance is unchanged, but the handler checks
`error.message.includes(insufficient funds)` case-sensitively while the
raised message starts with a capital I, so the dedicated 400 branch is
dead and the response is the generic 500. This theorem evaluates the
code at that failing input. -/
theorem post_debit_insufficient_funds_returns_500 :
    (handlePost ⟨[("u", 50)], [], 0⟩ "u" ⟨.num 75, .str "debit", none, none⟩ "g").1 =
      { status := 500, body := .errMsg "Failed to update wallet" } ∧
    (handlePost ⟨[("u", 50)], [], 0⟩ "u" ⟨.num 75, .str "debit", none, none⟩ "g").2 =
      ⟨[("u", 50)], [], 0⟩ := by
  constructor <;> decide

/-- C2: in every database reachable from the empty one by engine calls,
every wallet balance is nonnegative, and a debit whose amount exceeds
the current balance fails with the insufficient-funds error and leaves
the state exactly as it was. -/
theorem wallet_balance_nonneg (ops : List Op) (uid : String) (amt : Int)
    (d r : Option String) (h : walletBal (run ops) uid < amt) :
    (∀ p ∈ (run ops).wallets, 0 ≤ p.2) ∧
    update_wallet_balance (run ops) uid amt "debit" d r =
      (.error (.insufficientFunds (walletBal (run ops) uid) amt), run ops) := by
  constructor
  · exact runFrom_wallets_nonneg ops DB.empty (by simp [DB.empty])
  · exact uwb_debit_insufficient (run ops) uid amt d r (by omega)

/-- Witness for C2 at a concrete input: the empty run and a debit of 1. -/
theorem wallet_balance_nonneg_witness :
    (∀ p ∈ (run []).wallets, 0 ≤ p.2) ∧
    update_wallet_balance (run []) "u" 1 "debit" none none =
      (.error (.insufficientFunds (walletBal (run []) "u") 1), run []) :=
  wallet_balance_nonneg [] "u" 1 none none (by decide)

/-- C3: after any sequence of engine calls from the empty database,
replaying the transaction rows of a user in creation order — adding the
amount for a credit row and subtracting it for a debit row —
reconstructs the current wallet balance exactly; and rows are never
mutated or deleted: any further sequence of calls only appends to the
transaction list. -/
theorem ledger_replay_reconstructs_balance (ops more : List Op) (uid : String) :
    walletBal (run ops) uid = replayLedger (userTxs (run ops) uid) ∧
    ∃ appended, (run (ops ++ more)).transactions = (run ops).transactions ++ appended := by
  constructor
  · exact runFrom_recon ops DB.empty
      (by intro u; simp [walletBal, userTxs, replayLedger, DB.empty, lookupBal]) uid
  · have : run (ops ++ more) = runFrom (run ops) more := by
      simp [run, runFrom, List.foldl_append]
    rw [this]
    exact runFrom_tx_extends more (run ops)

/-- C4: whenever `update_wallet_balance` fails — insufficient funds,
invalid transaction type, or the balance CHECK — the error is reported
to the caller and the returned state is byte-for-byte the entry state:
the lazy wallet creation of step 1 and every other effect are rolled
back. -/
theorem apply_transaction_failure_leaves_state_unchanged (db : DB) (uid : String)
    (amt : Int) (ty : String) (d r : Option String) (e : PgErr)
    (h : (update_wallet_balance db uid amt ty d r).1 = .error e) :
    (update_wallet_balance db uid amt ty d r).2 = db :=
  uwb_error_state db uid amt ty d r e h

/-- Witness for C4 at a concrete input: a debit of 5 against an absent
wallet fails and leaves the empty database empty. -/
theorem apply_transaction_failure_leaves_state_unchanged_witness :
    (update_wallet_balance DB.empty "u" 5 "debit" none none).2 = DB.empty :=
  apply_transaction_failure_leaves_state_unchanged DB.empty "u" 5 "debit" none none
    (.insufficientFunds 0 5) (by rfl)


/-! ### Branch equations for the POST handler -/

theorem handlePost_missing (db : DB) (uid : String) (b : PostBody) (g : String)
    (h : ¬ (jsTruthy b.amount = true) ∨ ¬ (jsTruthy b.type = true)) :
    handlePost db uid b g =
      ({ status := 400,
         body := .errMsg "Missing required fields: amount and type are required" }, db) := by
  unfold handlePost
  rw [if_pos h]

theorem handlePost_badtype (db : DB) (uid : String) (b : PostBody) (g : String)
    (h1 : ¬ (¬ (jsTruthy b.amount = true) ∨ ¬ (jsTruthy b.type = true)))
    (h2 : b.type ≠ JsVal.str "credit" ∧ b.type ≠ JsVal.str "debit") :
    handlePost db uid b g =
      ({ status := 400,
         body := .errMsg "Type must be either \x22credit\x22 or \x22debit\x22" }, db) := by
  unfold handlePost
  rw [if_neg h1, if_pos h2]

theorem handlePost_nan (db : DB) (uid : String) (b : PostBody) (g : String)
    (h1 : ¬ (¬ (jsTruthy b.amount = true) ∨ ¬ (jsTruthy b.type = true)))
    (h2 : ¬ (b.type ≠ JsVal.str "credit" ∧ b.type ≠ JsVal.str "debit"))
    (hn : jsToNumber b.amount = none) :
    handlePost db uid b g =
      ({ status := 400, body := .errMsg "Amount must be a positive number" }, db) := by
  unfold handlePost
  rw [if_neg h1, if_neg h2, hn]

theorem handlePost_nonpos (db : DB) (uid : String) (b : PostBody) (g : String) (n : Int)
    (h1 : ¬ (¬ (jsTruthy b.amount = true) ∨ ¬ (jsTruthy b.type = true)))
    (h2 : ¬ (b.type ≠ JsVal.str "credit" ∧ b.type ≠ JsVal.str "debit"))
    (hn : jsToNumber b.amount = some n) (hq : n ≤ 0) :
    handlePost db uid b g =
      ({ status := 400, body := .errMsg "Amount must be a positive number" }, db) := by
  unfold handlePost
  rw [if_neg h1, if_neg h2, hn]
  dsimp only
  rw [if_pos hq]

theorem handlePost_calls_engine (db : DB) (uid : String) (b : PostBody) (g : String)
    (n : Int)
    (h1 : ¬ (¬ (jsTruthy b.amount = true) ∨ ¬ (jsTruthy b.type = true)))
    (h2 : ¬ (b.type ≠ JsVal.str "credit" ∧ b.type ≠ JsVal.str "debit"))
    (hn : jsToNumber b.amount = some n) (hq : ¬ n ≤ 0) :
    handlePost db uid b g =
      (match update_wallet_balance db uid n (postTypeString b)
          (some (jsOrDefault b.description (defaultDesc (postTypeString b))))
          (some (jsOrDefault b.reference_id g)) with
       | (.error e, db2) =>
         if jsIncludes e.message "insufficient funds" then
           ({ status := 400, body := .errMsg "Insufficient funds" }, db2)
         else
           ({ status := 500, body := .errMsg "Failed to update wallet" }, db2)
       | (.ok data, db2) => ({ status := 200, body := .txResult data }, db2)) := by
  unfold handlePost
  rw [if_neg h1, if_neg h2, hn]
  dsimp only
  rw [if_neg hq]

/-- C5: every POST body whose amount is missing, non-numeric, or at
most 0, or whose type is not exactly the string credit or debit, is
answered 400 by the handler with the database state untouched, and the
response is computed without consulting the store at all (it is the
same over every database state), so `update_wallet_balance` is never
invoked. -/
theorem post_validation_rejects_before_storage (db : DB) (uid : String) (b : PostBody)
    (g : String) (h : validationFailsB b = true) :
    (handlePost db uid b g).1.status = 400 ∧
    (handlePost db uid b g).2 = db ∧
    (handlePost db uid b g).1 = (handlePost DB.empty uid b g).1 := by
  by_cases h1 : ¬ (jsTruthy b.amount = true) ∨ ¬ (jsTruthy b.type = true)
  · rw [handlePost_missing db uid b g h1, handlePost_missing DB.empty uid b g h1]
    exact ⟨rfl, rfl, rfl⟩
  · by_cases h2 : b.type ≠ JsVal.str "credit" ∧ b.type ≠ JsVal.str "debit"
    · rw [handlePost_badtype db uid b g h1 h2, handlePost_badtype DB.empty uid b g h1 h2]
      exact ⟨rfl, rfl, rfl⟩
    · cases hn : jsToNumber b.amount with
      | none =>
        rw [handlePost_nan db uid b g h1 h2 hn, handlePost_nan DB.empty uid b g h1 h2 hn]
        exact ⟨rfl, rfl, rfl⟩
      | some q =>
        have hq : q ≤ 0 := by
          simp only [validationFailsB, hn, Bool.or_eq_true, beq_iff_eq,
            Bool.and_eq_true, bne_iff_ne, decide_eq_true_eq] at h
          rcases h with (h | h) | h
          · rw [not_or, not_not, not_not] at h1
            rw [h] at h1
            simp [jsTruthy] at h1
          · exact h
          · exact absurd h h2
        rw [handlePost_nonpos db uid b g q h1 h2 hn hq,
          handlePost_nonpos DB.empty uid b g q h1 h2 hn hq]
        exact ⟨rfl, rfl, rfl⟩

/-- Witness for C5 at the concrete scenario of the spec: a mutation
request with amount -10 is rejected with 400 before any storage
access. -/
theorem post_validation_rejects_before_storage_witness :
    (handlePost ⟨[("u", 50)], [], 0⟩ "u" ⟨.num (-10), .str "credit", none, none⟩ "g").1.status = 400 ∧
    (handlePost ⟨[("u", 50)], [], 0⟩ "u" ⟨.num (-10), .str "credit", none, none⟩ "g").2 = ⟨[("u", 50)], [], 0⟩ ∧
    (handlePost ⟨[("u", 50)], [], 0⟩ "u" ⟨.num (-10), .str "credit", none, none⟩ "g").1 =
      (handlePost DB.empty "u" ⟨.num (-10), .str "credit", none, none⟩ "g").1 :=
  post_validation_rejects_before_storage ⟨[("u", 50)], [], 0⟩ "u"
    ⟨.num (-10), .str "credit", none, none⟩ "g" (by decide)

/-- C6: whenever the POST handler answers 200 with a transaction
result, the engine call succeeded: the result carries the caller
identity, the previous balance, a new balance equal to previous plus
amount for a credit and previous minus amount for a debit, the new
balance is persisted in the wallet row, exactly one transaction row
recording the same fields was appended to the ledger, and an omitted
description or reference id was defaulted (Wallet top-up / Wallet
deduction, respectively the generated uuid). -/
theorem post_success_persists_and_reports (db : DB) (uid : String) (b : PostBody)
    (g : String) (res : TxResult) (db2 : DB)
    (h : handlePost db uid b g = ({ status := 200, body := .txResult res }, db2)) :
    res.user_id = uid ∧
    res.previous_balance = walletBal db uid ∧
    ((res.type = "credit" ∧ res.new_balance = res.previous_balance + res.amount) ∨
     (res.type = "debit" ∧ res.new_balance = res.previous_balance - res.amount)) ∧
    lookupBal db2.wallets uid = some res.new_balance ∧
    db2.transactions = db.transactions ++
      [⟨res.transaction_id, res.user_id, res.amount, res.type, res.description,
        res.reference_id, res.created_at⟩] ∧
    (b.description = none → res.description = some (defaultDesc res.type)) ∧
    (b.reference_id = none → res.reference_id = some g) := by
  by_cases h1 : ¬ (jsTruthy b.amount = true) ∨ ¬ (jsTruthy b.type = true)
  · rw [handlePost_missing db uid b g h1] at h
    simp at h
  by_cases h2 : b.type ≠ JsVal.str "credit" ∧ b.type ≠ JsVal.str "debit"
  · rw [handlePost_badtype db uid b g h1 h2] at h
    simp at h
  cases hn : jsToNumber b.amount with
  | none =>
    rw [handlePost_nan db uid b g h1 h2 hn] at h
    simp at h
  | some n =>
    by_cases hq : n ≤ 0
    · rw [handlePost_nonpos db uid b g n h1 h2 hn hq] at h
      simp at h
    · rw [handlePost_calls_engine db uid b g n h1 h2 hn hq] at h
      rw [not_and_or, not_not, not_not] at h2
      rcases h2 with ht | ht
      · have hps : postTypeString b = "credit" := by simp [postTypeString, ht]
        rw [hps] at h
        by_cases hneg : walletBal db uid + n < 0
        · rw [uwb_credit_err db uid n _ _ hneg] at h
          dsimp only at h
          split at h <;> simp at h
        · rw [uwb_credit_ok db uid n _ _ hneg] at h
          dsimp only at h
          simp only [Prod.mk.injEq, HttpResponse.mk.injEq, RespBody.txResult.injEq,
            true_and] at h
          obtain ⟨hres, hdb2⟩ := h
          subst hres
          subst hdb2
          refine ⟨rfl, rfl, Or.inl ⟨rfl, rfl⟩, ?_, rfl, ?_, ?_⟩
          · rw [lookupBal_setBal_self, lazyCreateWallet_lookup_self]
            rfl
          · intro hd
            simp [jsOrDefault, hd, defaultDesc]
          · intro hr
            simp [jsOrDefault, hr]
      · have hps : postTypeString b = "debit" := by simp [postTypeString, ht]
        rw [hps] at h
        by_cases hneg : walletBal db uid - n < 0
        · rw [uwb_debit_insufficient db uid n _ _ hneg] at h
          dsimp only at h
          split at h <;> simp at h
        · rw [uwb_debit_ok db uid n _ _ hneg] at h
          dsimp only at h
          simp only [Prod.mk.injEq, HttpResponse.mk.injEq, RespBody.txResult.injEq,
            true_and] at h
          obtain ⟨hres, hdb2⟩ := h
          subst hres
          subst hdb2
          refine ⟨rfl, rfl, Or.inr ⟨rfl, rfl⟩, ?_, rfl, ?_, ?_⟩
          · rw [lookupBal_setBal_self, lazyCreateWallet_lookup_self]
            rfl
          · intro hd
            simp [jsOrDefault, hd, defaultDesc]
          · intro hr
            simp [jsOrDefault, hr]

/-- Witness for C6 at the concrete scenario of the spec: balance 50,
credit 25 with description omitted, yielding balance 75 and the default
credit description. -/
theorem post_success_persists_and_reports_witness :
    TxResult.user_id ⟨0, "u", 50, 75, 25, "credit", some "Wallet top-up", some "g", 0⟩ = "u" ∧
    TxResult.previous_balance ⟨0, "u", 50, 75, 25, "credit", some "Wallet top-up", some "g", 0⟩ =
      walletBal ⟨[("u", 50)], [], 0⟩ "u" ∧
    ((TxResult.type ⟨0, "u", 50, 75, 25, "credit", some "Wallet top-up", some "g", 0⟩ = "credit" ∧ (75 : Int) = 50 + 25) ∨
     (TxResult.type ⟨0, "u", 50, 75, 25, "credit", some "Wallet top-up", some "g", 0⟩ = "debit" ∧ (75 : Int) = 50 - 25)) ∧
    lookupBal (DB.wallets ⟨[("u", 75)], [⟨0, "u", 25, "credit", some "Wallet top-up", some "g", 0⟩], 1⟩) "u" = some 75 ∧
    DB.transactions ⟨[("u", 75)], [⟨0, "u", 25, "credit", some "Wallet top-up", some "g", 0⟩], 1⟩ =
      DB.transactions ⟨[("u", 50)], [], 0⟩ ++ [⟨0, "u", 25, "credit", some "Wallet top-up", some "g", 0⟩] ∧
    ((none : Option String) = none → (some "Wallet top-up" : Option String) = some (defaultDesc "credit")) ∧
    ((none : Option String) = none → (some "g" : Option String) = some "g") := by
  have := post_success_persists_and_reports ⟨[("u", 50)], [], 0⟩ "u"
    ⟨.num 25, .str "credit", none, none⟩ "g"
    ⟨0, "u", 50, 75, 25, "credit", some "Wallet top-up", some "g", 0⟩
    ⟨[("u", 75)], [⟨0, "u", 25, "credit", some "Wallet top-up", some "g", 0⟩], 1⟩
    (by rfl)
  simpa using this

/-- C7: when no storage call fails, GET /wallet answers 200 with the
current balance (zero, with a zero-balance wallet row created, when the
user had none), the page of the user transactions ordered by created_at
descending that drops `offset` rows and keeps `limit` rows (defaults 10
and 0 when the query parameters are absent), and a pagination object
carrying the total transaction count of that user; the ledger is not
touched. -/
theorem get_wallet_summary_contract (db : DB) (uid : String) (q : WalletQuery) :
    (handleGet db uid q ⟨false, false, false, false⟩).1.status = 200 ∧
    (handleGet db uid q ⟨false, false, false, false⟩).1.body =
      .summary (walletBal db uid)
        (((sortByCreatedAtDesc (userTxs db uid)).drop (q.offset.getD 0).toNat).take
          (q.limit.getD 10).toNat)
        (userTxs db uid).length (q.offset.getD 0) (q.limit.getD 10) ∧
    lookupBal (handleGet db uid q ⟨false, false, false, false⟩).2.wallets uid =
      some (walletBal db uid) ∧
    (handleGet db uid q ⟨false, false, false, false⟩).2.transactions = db.transactions := by
  have hslice : ∀ l : List WalletTx, ∀ off lim : Int,
      rangeSlice l off (off + lim - 1) = (l.drop off.toNat).take lim.toNat := by
    intro l off lim
    unfold rangeSlice
    congr 1
    omega
  cases hw : lookupBal db.wallets uid with
  | none =>
    have hb : walletBal db uid = 0 := by simp [walletBal, hw]
    refine ⟨?_, ?_, ?_, ?_⟩
    · simp [handleGet, getTail, hw]
    · simp only [handleGet, getTail, Bool.false_eq_true, if_false, hw]
      rw [hb]
      simp [userTxs, hslice]
    · simp only [handleGet, getTail, Bool.false_eq_true, if_false, hw]
      rw [hb]
      rw [lookupBal_append_of_none db.wallets uid uid 0 hw]
      simp
    · simp [handleGet, getTail, hw]
  | some bal =>
    have hb : walletBal db uid = bal := by simp [walletBal, hw]
    refine ⟨?_, ?_, ?_, ?_⟩
    · simp [handleGet, getTail, hw]
    · simp only [handleGet, getTail, Bool.false_eq_true, if_false, hw]
      rw [hb]
      simp [userTxs, hslice]
    · simp [handleGet, getTail, hw, hb]
    · simp [handleGet, getTail, hw]

/-- C8 counterexample: a GET /wallet request during which the
transaction-count query fails is answered 200 — the storage failure is
only logged, never surfaced: the response is the normal summary with
the pagination total silently replaced by 0 (the true count here
is 1). -/
theorem get_count_failure_swallowed_cex :
    (handleGet ⟨[("u", 5)], [⟨0, "u", 5, "credit", none, none, 0⟩], 1⟩ "u" ⟨none, none⟩
        ⟨false, false, false, true⟩).1 =
      { status := 200,
        body := .summary 5 [⟨0, "u", 5, "credit", none, none, 0⟩] 0 0 10 } := by
  decide

/-- Every POST /wallet request is answered either 200 with the
transaction result (the engine call succeeded) or with an error object
under status 400 or 500: no POST failure is converted into a success
response. -/
theorem handlePost_reports (db : DB) (uid : String) (b : PostBody) (g : String) :
    (∃ res db2, handlePost db uid b g = ({ status := 200, body := .txResult res }, db2)) ∨
    (∃ s m db2, (s = 400 ∨ s = 500) ∧
      handlePost db uid b g = ({ status := s, body := .errMsg m }, db2)) := by
  by_cases h1 : ¬ (jsTruthy b.amount = true) ∨ ¬ (jsTruthy b.type = true)
  · right
    exact ⟨400, _, db, Or.inl rfl, handlePost_missing db uid b g h1⟩
  by_cases h2 : b.type ≠ JsVal.str "credit" ∧ b.type ≠ JsVal.str "debit"
  · right
    exact ⟨400, _, db, Or.inl rfl, handlePost_badtype db uid b g h1 h2⟩
  cases hn : jsToNumber b.amount with
  | none =>
    right
    exact ⟨400, _, db, Or.inl rfl, handlePost_nan db uid b g h1 h2 hn⟩
  | some n =>
    by_cases hq : n ≤ 0
    · right
      exact ⟨400, _, db, Or.inl rfl, handlePost_nonpos db uid b g n h1 h2 hn hq⟩
    · rw [handlePost_calls_engine db uid b g n h1 h2 hn hq]
      rcases hu : update_wallet_balance db uid n (postTypeString b)
          (some (jsOrDefault b.description (defaultDesc (postTypeString b))))
          (some (jsOrDefault b.reference_id g)) with ⟨fst, db2⟩
      cases fst with
      | ok res =>
        left
        exact ⟨res, db2, rfl⟩
      | error e =>
        right
        by_cases hm : jsIncludes e.message "insufficient funds" = true
        · exact ⟨400, _, db2, Or.inl rfl, by dsimp only; rw [if_pos hm]⟩
        · exact ⟨500, _, db2, Or.inr rfl, by dsimp only; rw [if_neg hm]⟩

/-- C8 (amended): failures of the wallet select, the wallet creation
insert, and the transactions select during GET /wallet are each
reported as a 500 response, and every POST /wallet failure is reported
in the response as a 400 or 500 error object (a 200 always carries the
transaction result); but a failure of the transaction-count query alone
is not reported: the GET status (first conjunct) never depends on the
count outcome, and under a count failure the request still succeeds
with pagination total 0 instead of the true count (second conjunct). -/
theorem wallet_failure_reporting (db : DB) (uid : String) (q : WalletQuery)
    (w c t k : Bool) :
    (handleGet db uid q ⟨w, c, t, k⟩).1.status =
      (if w then 500
       else if (lookupBal db.wallets uid).isNone && c then 500
       else if t then 500
       else 200) ∧
    paginationTotal (handleGet db uid q ⟨false, false, false, k⟩).1.body =
      some (if k then 0 else (userTxs db uid).length) ∧
    (∀ (b : PostBody) (g : String),
      (∃ res db2, handlePost db uid b g = ({ status := 200, body := .txResult res }, db2)) ∨
      (∃ s m db2, (s = 400 ∨ s = 500) ∧
        handlePost db uid b g = ({ status := s, body := .errMsg m }, db2))) := by
  refine ⟨?_, ?_, fun b g => handlePost_reports db uid b g⟩
  · cases w <;> cases c <;> cases t <;> cases hl : lookupBal db.wallets uid <;>
      simp [handleGet, getTail, hl]
  · cases k <;> cases hl : lookupBal db.wallets uid <;>
      simp [handleGet, getTail, hl, paginationTotal, userTxs]

/-- C9: for every POST body that passes the handler validation, the
type string handed to `update_wallet_balance` is exactly the credit or
debit string of the request, and on such a type the engine can never
take its final ELSE branch: its result is never the
invalid-transaction-type error. -/
theorem api_validated_type_never_invalid (db : DB) (uid : String) (b : PostBody)
    (amt : Int) (d r : Option String) (h : validationFailsB b = false) :
    b.type = JsVal.str (postTypeString b) ∧
    (update_wallet_balance db uid amt (postTypeString b) d r).1 ≠
      Except.error PgErr.invalidTransactionType := by
  have hz := (Bool.or_eq_false_iff.mp h).2
  have ht : b.type = JsVal.str "credit" ∨ b.type = JsVal.str "debit" := by
    rcases Bool.and_eq_false_iff.mp hz with hz1 | hz1
    · left
      simpa using hz1
    · right
      simpa using hz1
  rcases ht with ht | ht
  · have hps : postTypeString b = "credit" := by simp [postTypeString, ht]
    rw [hps]
    refine ⟨ht, ?_⟩
    by_cases hneg : walletBal db uid + amt < 0
    · rw [uwb_credit_err db uid amt d r hneg]
      simp
    · rw [uwb_credit_ok db uid amt d r hneg]
      simp
  · have hps : postTypeString b = "debit" := by simp [postTypeString, ht]
    rw [hps]
    refine ⟨ht, ?_⟩
    by_cases hneg : walletBal db uid - amt < 0
    · rw [uwb_debit_insufficient db uid amt d r hneg]
      simp
    · rw [uwb_debit_ok db uid amt d r hneg]
      simp

/-- Witness for C9 at a concrete input: a validated debit request body. -/
theorem api_validated_type_never_invalid_witness :
    PostBody.type ⟨.num 25, .str "debit", none, none⟩ =
      JsVal.str (postTypeString ⟨.num 25, .str "debit", none, none⟩) ∧
    (update_wallet_balance DB.empty "u" 25
        (postTypeString ⟨.num 25, .str "debit", none, none⟩) none none).1 ≠
      Except.error PgErr.invalidTransactionType :=
  api_validated_type_never_invalid DB.empty "u" ⟨.num 25, .str "debit", none, none⟩
    25 none none (by decide)

/-- C10: whenever `getUserFromRequest` cannot authenticate the request
— no Authorization header of the Bearer form, or a token the identity
provider rejects — the middleware answers 401 Unauthorized and returns
the database state unchanged: the wallet handler is never reached, so
neither wallets nor the transaction ledger can change. -/
theorem unauthorized_rejected_without_state_change (verify : String → Option String)
    (req : Request) (db : DB) (oc : GetOutcomes) (g : String)
    (h : getUserFromRequest verify req.authHeader = none) :
    withAuth verify req db oc g =
      ({ status := 401, body := .errMsg "Unauthorized" }, db) := by
  unfold withAuth
  rw [h]

/-- Witness for C10 at a concrete input: a Bearer token the identity
provider rejects. -/
theorem unauthorized_rejected_without_state_change_witness :
    withAuth (fun _ => none)
      ⟨"POST", some "Bearer tok", ⟨none, none⟩, ⟨.num 5, .str "credit", none, none⟩⟩
      DB.empty ⟨false, false, false, false⟩ "g" =
      ({ status := 401, body := .errMsg "Unauthorized" }, DB.empty) :=
  unauthorized_rejected_without_state_change (fun _ => none)
    ⟨"POST", some "Bearer tok", ⟨none, none⟩, ⟨.num 5, .str "credit", none, none⟩⟩
    DB.empty ⟨false, false, false, false⟩ "g" (by rfl)
